import Mathlib

/-!
Verification of the EBSight volume/snapshot analysis core (src/ebsight.py)
against its natural-language specification.

The source's analysis core is shallowly embedded below:
  - `calculate_snapshot_costs` embeds the cost model of the same name;
  - `get_volume_metrics` embeds the CloudWatch metric aggregation loop,
    with the external fetch abstracted as an `Except`-valued function;
  - `analyze_volume_snapshots` embeds the snapshot change analysis
    (sorting, total change, day count, derived rates);
  - `fleetTotals` / `fsxFiguresOf` embed the summary totals loop of
    `print_consolidated_summary`.
Python floats are modelled as rationals (ℚ), timestamps as integer seconds.
-/

namespace EBSight

/-! ### Cost model (`calculate_snapshot_costs`, src/ebsight.py lines 323-353) -/

/-- The source constant `SNAPSHOT_COST_PER_GB_MONTH = 0.05`. -/
def SNAPSHOT_COST_PER_GB_MONTH : ℚ := 5 / 100

structure SnapshotCosts where
  daily_cost : ℚ
  weekly_cost : ℚ
  monthly_cost : ℚ
  annual_cost : ℚ
deriving Repr, DecidableEq

/-- Embedding of `calculate_snapshot_costs(snapshot_size_gib)`: the function
performs no validation of its argument and returns the four cost figures. -/
def calculate_snapshot_costs (snapshot_size_gib : ℚ) : SnapshotCosts :=
  let daily_cost := (snapshot_size_gib * SNAPSHOT_COST_PER_GB_MONTH) / 30
  let weekly_cost := daily_cost * 7
  let monthly_cost := snapshot_size_gib * SNAPSHOT_COST_PER_GB_MONTH
  let annual_cost := monthly_cost * 12
  { daily_cost := daily_cost, weekly_cost := weekly_cost,
    monthly_cost := monthly_cost, annual_cost := annual_cost }

/-! ### Metric aggregator (`get_volume_metrics`, src/ebsight.py lines 132-233) -/

/-- The five CloudWatch dimensions queried by the source, in the insertion
order of its `metrics` dict. -/
inductive MetricName
  | ReadOps
  | WriteOps
  | ReadThroughput
  | WriteThroughput
  | QueueLength
deriving Repr, DecidableEq

/-- One raw CloudWatch datapoint: the reported `p99` and `p99.9` extended
statistics (the queue-length query only ever reads `p99`). -/
structure Datapoint where
  p99 : ℚ
  p99_9 : ℚ
deriving Repr, DecidableEq

/-- The source's `period = 600` (10-minute sampling periods). -/
def metricPeriod : ℚ := 600

/-- Python's `max(...)` over a non-empty generator, as a left fold; the source
only ever applies it to non-empty datapoint lists. -/
def maxStat : List ℚ → ℚ
  | [] => 0
  | x :: xs => xs.foldl max x

/-- The `results` dict built by `get_volume_metrics`: nine fields, with no
peak entry for queue length. -/
structure MetricResults where
  ReadOps_p99 : ℚ
  WriteOps_p99 : ℚ
  ReadOps_peak : ℚ
  WriteOps_peak : ℚ
  ReadThroughput_p99 : ℚ
  WriteThroughput_p99 : ℚ
  ReadThroughput_peak : ℚ
  WriteThroughput_peak : ℚ
  QueueLength_p99 : ℚ
deriving Repr, DecidableEq

/-- The all-zero metric record returned from the `except` handler of
`get_volume_metrics` (src/ebsight.py lines 225-233). -/
def zeroMetricResults : MetricResults :=
  { ReadOps_p99 := 0, WriteOps_p99 := 0, ReadOps_peak := 0, WriteOps_peak := 0,
    ReadThroughput_p99 := 0, WriteThroughput_p99 := 0,
    ReadThroughput_peak := 0, WriteThroughput_peak := 0, QueueLength_p99 := 0 }

/-- The per-dimension aggregation loop of `get_volume_metrics`
(src/ebsight.py lines 205-222), given the datapoint list returned for each
dimension: empty datapoints give 0; ops dimensions divide the max statistic by
the period; throughput dimensions further divide by `1024 * 1024`; queue
length is used as-is and has no peak. -/
def metricsFromData (ro wo rt wt ql : List Datapoint) : MetricResults :=
  { ReadOps_p99 :=
      if ro = [] then 0 else maxStat (ro.map Datapoint.p99) / metricPeriod
    WriteOps_p99 :=
      if wo = [] then 0 else maxStat (wo.map Datapoint.p99) / metricPeriod
    ReadOps_peak :=
      if ro = [] then 0 else maxStat (ro.map Datapoint.p99_9) / metricPeriod
    WriteOps_peak :=
      if wo = [] then 0 else maxStat (wo.map Datapoint.p99_9) / metricPeriod
    ReadThroughput_p99 :=
      if rt = [] then 0
      else maxStat (rt.map Datapoint.p99) / metricPeriod / (1024 * 1024)
    WriteThroughput_p99 :=
      if wt = [] then 0
      else maxStat (wt.map Datapoint.p99) / metricPeriod / (1024 * 1024)
    ReadThroughput_peak :=
      if rt = [] then 0
      else maxStat (rt.map Datapoint.p99_9) / metricPeriod / (1024 * 1024)
    WriteThroughput_peak :=
      if wt = [] then 0
      else maxStat (wt.map Datapoint.p99_9) / metricPeriod / (1024 * 1024)
    QueueLength_p99 :=
      if ql = [] then 0 else maxStat (ql.map Datapoint.p99) }

/-- Embedding of `get_volume_metrics`: the external CloudWatch call is
abstracted as `fetch`, an `Except`-valued function per dimension. The source
wraps the whole retrieval loop in `try/except`, so the first fetch error
aborts the loop, discards any partial results, and yields the all-zero
record; with no error the per-dimension aggregation runs. -/
def get_volume_metrics
    (fetch : MetricName → Except String (List Datapoint)) : MetricResults :=
  match fetch MetricName.ReadOps, fetch MetricName.WriteOps,
        fetch MetricName.ReadThroughput, fetch MetricName.WriteThroughput,
        fetch MetricName.QueueLength with
  | Except.ok ro, Except.ok wo, Except.ok rt, Except.ok wt, Except.ok ql =>
      metricsFromData ro wo rt wt ql
  | _, _, _, _, _ => zeroMetricResults

/-- A fetch function that answers every dimension successfully with the given
datapoint lists. -/
def okFetch (ro wo rt wt ql : List Datapoint) :
    MetricName → Except String (List Datapoint)
  | MetricName.ReadOps => Except.ok ro
  | MetricName.WriteOps => Except.ok wo
  | MetricName.ReadThroughput => Except.ok rt
  | MetricName.WriteThroughput => Except.ok wt
  | MetricName.QueueLength => Except.ok ql

/-- A fetch function that fails on every dimension. -/
def failingFetch : MetricName → Except String (List Datapoint) :=
  fun _ => Except.error "metrics unavailable"

/-! ### Snapshot change analyzer (`analyze_volume_snapshots`,
src/ebsight.py lines 355-522) -/

/-- One snapshot record as consumed by the analyzer: the fields of the AWS
response the source reads. Timestamps are modelled as integer seconds. -/
structure Snapshot where
  id : String
  startTime : ℤ
  volumeSize : ℚ
  fullSnapshotSizeInBytes : ℕ
  description : String
deriving Repr, DecidableEq, Inhabited

/-- The source's `actual_size_gib = float(FullSnapshotSizeInBytes) / (1024 ** 3)`
(src/ebsight.py line 410). -/
def Snapshot.actual_size_gib (s : Snapshot) : ℚ :=
  (s.fullSnapshotSizeInBytes : ℚ) / 1024 ^ 3

/-- Comparison by creation timestamp, the sort key of
`sorted(snapshots, key=lambda x: x["StartTime"])` (src/ebsight.py line 397). -/
def snapLE (a b : Snapshot) : Prop := a.startTime ≤ b.startTime

instance : DecidableRel snapLE := fun a b => Int.decLe a.startTime b.startTime

instance : IsTotal Snapshot snapLE := ⟨fun a b => Int.le_total a.startTime b.startTime⟩

instance : IsTrans Snapshot snapLE := ⟨fun _ _ _ hab hbc => le_trans hab hbc⟩

/-- The analyzer's own sorting of the snapshot list by creation timestamp
(src/ebsight.py lines 396-397), modelled with a stable sort. -/
def sortSnapshots (l : List Snapshot) : List Snapshot := List.insertionSort snapLE l

/-- The `total_change` computation (src/ebsight.py lines 424-435): with two or
more snapshots, compare first and last actual sizes and keep the larger-or-
first; with exactly one, that snapshot's actual size; 0 on an empty list
(unreachable, the analyzer bails out earlier). -/
def total_change_of : List Snapshot → ℚ
  | [] => 0
  | s :: rest =>
    match rest.getLast? with
    | none => s.actual_size_gib
    | some latest =>
      if latest.actual_size_gib > s.actual_size_gib then latest.actual_size_gib
      else s.actual_size_gib

/-- The `total_days` computation (src/ebsight.py lines 437-445): whole days
between first and last snapshot (Python `timedelta.days`, i.e. floor division
of the second difference by 86400), forced to 1 when it is 0; 1 when fewer
than two snapshots exist. -/
def total_days_of : List Snapshot → ℤ
  | [] => 1
  | s :: rest =>
    match rest.getLast? with
    | none => 1
    | some latest =>
      let d := (latest.startTime - s.startTime).fdiv 86400
      if d = 0 then 1 else d

/-- The analyzer fields of the per-volume dict returned by
`analyze_volume_snapshots` (src/ebsight.py lines 499-522); cost and metric
fields are covered by `calculate_snapshot_costs` and `get_volume_metrics`. -/
structure SnapAnalysis where
  total_snapshot_size : ℚ
  snapshot_count : ℕ
  usage_percentage : ℚ
  avg_daily_change : ℚ
  avg_daily_change_percent : ℚ
  total_change : ℚ
deriving Repr, DecidableEq

/-- Embedding of the snapshot-analysis core of `analyze_volume_snapshots`:
sort the snapshots by creation time, return `none` when the list is empty
(the source prints a notice and returns `None`, lines 399-401), otherwise
compute the change and rate fields (lines 420-450). -/
def analyze_volume_snapshots (snapshots : List Snapshot) (volume_size : ℚ) :
    Option SnapAnalysis :=
  let volume_snapshots := sortSnapshots snapshots
  match volume_snapshots.getLast? with
  | none => none
  | some latest =>
    let total_snapshot_size := latest.actual_size_gib
    let total_change := total_change_of volume_snapshots
    let total_days := total_days_of volume_snapshots
    let avg_daily_change :=
      if total_days > 0 then total_change / (total_days : ℚ) else 0
    let avg_daily_change_percent :=
      if volume_size > 0 then avg_daily_change / volume_size * 100 else 0
    let usage_percentage :=
      if volume_size > 0 then total_snapshot_size / volume_size * 100 else 0
    some { total_snapshot_size := total_snapshot_size,
           snapshot_count := volume_snapshots.length,
           usage_percentage := usage_percentage,
           avg_daily_change := avg_daily_change,
           avg_daily_change_percent := avg_daily_change_percent,
           total_change := total_change }

/-- The per-volume loop of `main` (src/ebsight.py lines 588-595): analyze each
volume in turn and append only the non-`None` results. -/
def collectReports (inputs : List (List Snapshot × ℚ)) : List SnapAnalysis :=
  inputs.filterMap fun p => analyze_volume_snapshots p.1 p.2

/-! ### Fleet summarizer (`print_consolidated_summary`,
src/ebsight.py lines 235-321) -/

/-- The fields of a per-volume report record that the consolidated summary
reads and sums (src/ebsight.py lines 263-276 and 308-320). -/
structure VolumeReport where
  volume_size : ℚ
  avg_daily_change : ℚ
  ReadOps_p99 : ℚ
  WriteOps_p99 : ℚ
  ReadOps_peak : ℚ
  WriteOps_peak : ℚ
  ReadThroughput_p99 : ℚ
  WriteThroughput_p99 : ℚ
  ReadThroughput_peak : ℚ
  WriteThroughput_peak : ℚ
deriving Repr, DecidableEq

/-- The nine running totals accumulated by the summary loop. -/
structure FleetTotals where
  total_size : ℚ
  total_read_iops_p99 : ℚ
  total_write_iops_p99 : ℚ
  total_read_iops_peak : ℚ
  total_write_iops_peak : ℚ
  total_read_mbps_p99 : ℚ
  total_write_mbps_p99 : ℚ
  total_read_mbps_peak : ℚ
  total_write_mbps_peak : ℚ
deriving Repr, DecidableEq

/-- One iteration of the totals loop (src/ebsight.py lines 263-276). -/
def addReport (t : FleetTotals) (v : VolumeReport) : FleetTotals :=
  { total_size := t.total_size + v.volume_size
    total_read_iops_p99 := t.total_read_iops_p99 + v.ReadOps_p99
    total_write_iops_p99 := t.total_write_iops_p99 + v.WriteOps_p99
    total_read_iops_peak := t.total_read_iops_peak + v.ReadOps_peak
    total_write_iops_peak := t.total_write_iops_peak + v.WriteOps_peak
    total_read_mbps_p99 := t.total_read_mbps_p99 + v.ReadThroughput_p99
    total_write_mbps_p99 := t.total_write_mbps_p99 + v.WriteThroughput_p99
    total_read_mbps_peak := t.total_read_mbps_peak + v.ReadThroughput_peak
    total_write_mbps_peak := t.total_write_mbps_peak + v.WriteThroughput_peak }

/-- The totals computed by `print_consolidated_summary`: all nine accumulators
start at 0 and each report is added in turn. -/
def fleetTotals (volumes_data : List VolumeReport) : FleetTotals :=
  volumes_data.foldl addReport
    { total_size := 0, total_read_iops_p99 := 0, total_write_iops_p99 := 0,
      total_read_iops_peak := 0, total_write_iops_peak := 0,
      total_read_mbps_p99 := 0, total_write_mbps_p99 := 0,
      total_read_mbps_peak := 0, total_write_mbps_peak := 0 }

/-- The FSx sizing-recommendation block (src/ebsight.py lines 308-320),
printed only when the corresponding flag is set. -/
structure FsxFigures where
  total_daily_change : ℚ
  daily_change_percent : ℚ
  sustained_iops : ℚ
  peak_iops : ℚ
  sustained_mbps : ℚ
  peak_mbps : ℚ
deriving Repr, DecidableEq

/-- The sizing-recommendation figures: recommended fast-tier capacity is the
sum of per-volume average daily change, its percentage of the total size
(0 when the total size is not positive), and combined sustained/peak IOPS and
throughput are read+write totals. -/
def fsxFiguresOf (volumes_data : List VolumeReport) : FsxFigures :=
  let t := fleetTotals volumes_data
  let total_daily_change := (volumes_data.map VolumeReport.avg_daily_change).sum
  let daily_change_percent :=
    if t.total_size > 0 then total_daily_change / t.total_size * 100 else 0
  { total_daily_change := total_daily_change
    daily_change_percent := daily_change_percent
    sustained_iops := t.total_read_iops_p99 + t.total_write_iops_p99
    peak_iops := t.total_read_iops_peak + t.total_write_iops_peak
    sustained_mbps := t.total_read_mbps_p99 + t.total_write_mbps_p99
    peak_mbps := t.total_read_mbps_peak + t.total_write_mbps_peak }

/-- A concrete snapshot: 20 GiB stored, taken at time 0. -/
def snapA : Snapshot :=
  { id := "snap-a", startTime := 0, volumeSize := 100,
    fullSnapshotSizeInBytes := 20 * 1024 ^ 3, description := "first backup" }

/-- A concrete snapshot: 35 GiB stored, taken five days after `snapA`. -/
def snapB : Snapshot :=
  { id := "snap-b", startTime := 432000, volumeSize := 100,
    fullSnapshotSizeInBytes := 35 * 1024 ^ 3, description := "latest backup" }

end EBSight

open EBSight

/-- Claim C7: the cost model returns exactly `monthly = size * 0.05`,
`daily = monthly / 30`, `weekly = daily * 7`, `annual = monthly * 12`, with no
rounding; for `size ≥ 0` the four figures are non-negative and ordered
`daily ≤ weekly ≤ monthly ≤ annual`, and `annual` is strictly monotone in the
size. -/
theorem cost_model_formula_and_monotone (s s1 s2 : ℚ)
    (hs : 0 ≤ s) (h1 : 0 ≤ s1) (h12 : s1 < s2) :
    (calculate_snapshot_costs s).monthly_cost = s * (5 / 100) ∧
    (calculate_snapshot_costs s).daily_cost = (calculate_snapshot_costs s).monthly_cost / 30 ∧
    (calculate_snapshot_costs s).weekly_cost = (calculate_snapshot_costs s).daily_cost * 7 ∧
    (calculate_snapshot_costs s).annual_cost = (calculate_snapshot_costs s).monthly_cost * 12 ∧
    0 ≤ (calculate_snapshot_costs s).daily_cost ∧
    (calculate_snapshot_costs s).daily_cost ≤ (calculate_snapshot_costs s).weekly_cost ∧
    (calculate_snapshot_costs s).weekly_cost ≤ (calculate_snapshot_costs s).monthly_cost ∧
    (calculate_snapshot_costs s).monthly_cost ≤ (calculate_snapshot_costs s).annual_cost ∧
    (calculate_snapshot_costs s1).annual_cost < (calculate_snapshot_costs s2).annual_cost := by
  refine ⟨rfl, rfl, rfl, rfl, ?_, ?_, ?_, ?_, ?_⟩ <;>
    simp only [calculate_snapshot_costs, SNAPSHOT_COST_PER_GB_MONTH] <;> nlinarith

/-- Witness for C7 at `s = 2`, `s1 = 0`, `s2 = 1`. -/
theorem cost_model_formula_and_monotone_witness :
    (calculate_snapshot_costs 2).monthly_cost = 2 * (5 / 100) ∧
    (calculate_snapshot_costs 2).daily_cost = (calculate_snapshot_costs 2).monthly_cost / 30 ∧
    (calculate_snapshot_costs 2).weekly_cost = (calculate_snapshot_costs 2).daily_cost * 7 ∧
    (calculate_snapshot_costs 2).annual_cost = (calculate_snapshot_costs 2).monthly_cost * 12 ∧
    0 ≤ (calculate_snapshot_costs 2).daily_cost ∧
    (calculate_snapshot_costs 2).daily_cost ≤ (calculate_snapshot_costs 2).weekly_cost ∧
    (calculate_snapshot_costs 2).weekly_cost ≤ (calculate_snapshot_costs 2).monthly_cost ∧
    (calculate_snapshot_costs 2).monthly_cost ≤ (calculate_snapshot_costs 2).annual_cost ∧
    (calculate_snapshot_costs 0).annual_cost < (calculate_snapshot_costs 1).annual_cost :=
  cost_model_formula_and_monotone 2 0 1 (by norm_num) (by norm_num) (by norm_num)

/-- Claim C8, counterexample: the claim says the cost model fails (signals
`InvalidInput`) on a negative size. In the source there is no validation at
all: at size `-1` the function succeeds and returns a fully defined, negative
cost record, so the claim is false. -/
theorem cost_model_no_validation_counterexample :
    calculate_snapshot_costs (-1) =
      { daily_cost := -(1 / 600), weekly_cost := -(7 / 600),
        monthly_cost := -(1 / 20), annual_cost := -(3 / 5) } := by
  simp only [calculate_snapshot_costs, SNAPSHOT_COST_PER_GB_MONTH]
  norm_num

/-- Claim C8, amended: the cost model never signals any error: for every size,
including negative ones, it succeeds, is a pure function of its argument, and
returns the unvalidated formula values (so a negative size yields a negative
monthly cost rather than an `InvalidInput` condition). -/
theorem cost_model_total_no_input_check (s : ℚ) (hneg : s < 0) :
    (calculate_snapshot_costs s).monthly_cost = s * (5 / 100) ∧
    (calculate_snapshot_costs s).monthly_cost < 0 := by
  refine ⟨rfl, ?_⟩
  simp only [calculate_snapshot_costs, SNAPSHOT_COST_PER_GB_MONTH]
  nlinarith

/-- Witness for the amended C8 at `s = -1`. -/
theorem cost_model_total_no_input_check_witness :
    (calculate_snapshot_costs (-1)).monthly_cost = (-1) * (5 / 100) ∧
    (calculate_snapshot_costs (-1)).monthly_cost < 0 :=
  cost_model_total_no_input_check (-1) (by norm_num)

/-- Claim C3: per dimension, empty raw datapoints give exactly 0 for p99 (and
peak where defined); otherwise p99 is the maximum datapoint p99 statistic and
peak the maximum p99.9 statistic, with ops values divided by the 600-second
period, throughput values divided by the period and then by `2 ^ 20`, and
queue length used as-is (it has no peak field in the result record). -/
theorem metric_aggregation_per_dimension (ro wo rt wt ql : List Datapoint) :
    (get_volume_metrics (okFetch ro wo rt wt ql)).ReadOps_p99 =
      (if ro = [] then 0 else maxStat (ro.map Datapoint.p99) / 600) ∧
    (get_volume_metrics (okFetch ro wo rt wt ql)).ReadOps_peak =
      (if ro = [] then 0 else maxStat (ro.map Datapoint.p99_9) / 600) ∧
    (get_volume_metrics (okFetch ro wo rt wt ql)).WriteOps_p99 =
      (if wo = [] then 0 else maxStat (wo.map Datapoint.p99) / 600) ∧
    (get_volume_metrics (okFetch ro wo rt wt ql)).WriteOps_peak =
      (if wo = [] then 0 else maxStat (wo.map Datapoint.p99_9) / 600) ∧
    (get_volume_metrics (okFetch ro wo rt wt ql)).ReadThroughput_p99 =
      (if rt = [] then 0 else maxStat (rt.map Datapoint.p99) / 600 / 2 ^ 20) ∧
    (get_volume_metrics (okFetch ro wo rt wt ql)).ReadThroughput_peak =
      (if rt = [] then 0 else maxStat (rt.map Datapoint.p99_9) / 600 / 2 ^ 20) ∧
    (get_volume_metrics (okFetch ro wo rt wt ql)).WriteThroughput_p99 =
      (if wt = [] then 0 else maxStat (wt.map Datapoint.p99) / 600 / 2 ^ 20) ∧
    (get_volume_metrics (okFetch ro wo rt wt ql)).WriteThroughput_peak =
      (if wt = [] then 0 else maxStat (wt.map Datapoint.p99_9) / 600 / 2 ^ 20) ∧
    (get_volume_metrics (okFetch ro wo rt wt ql)).QueueLength_p99 =
      (if ql = [] then 0 else maxStat (ql.map Datapoint.p99)) := by
  have h20 : ((1024 : ℚ) * 1024) = 2 ^ 20 := by norm_num
  simp only [get_volume_metrics, okFetch, metricsFromData, metricPeriod, h20]
  repeat' constructor

/-- Claim C4: any error while retrieving the raw datapoint sets is caught at
the boundary of `get_volume_metrics` and converted to the all-zero metric
record (every p99 and peak field equal to 0); a single failed call suffices
and there is no retry. -/
theorem metric_fetch_error_all_zero
    (fetch : MetricName → Except String (List Datapoint))
    (h : ∃ m e, fetch m = Except.error e) :
    get_volume_metrics fetch = zeroMetricResults ∧
    zeroMetricResults.ReadOps_p99 = 0 ∧ zeroMetricResults.WriteOps_p99 = 0 ∧
    zeroMetricResults.ReadOps_peak = 0 ∧ zeroMetricResults.WriteOps_peak = 0 ∧
    zeroMetricResults.ReadThroughput_p99 = 0 ∧
    zeroMetricResults.WriteThroughput_p99 = 0 ∧
    zeroMetricResults.ReadThroughput_peak = 0 ∧
    zeroMetricResults.WriteThroughput_peak = 0 ∧
    zeroMetricResults.QueueLength_p99 = 0 := by
  obtain ⟨m, e, hm⟩ := h
  refine ⟨?_, rfl, rfl, rfl, rfl, rfl, rfl, rfl, rfl, rfl⟩
  unfold get_volume_metrics
  cases h1 : fetch MetricName.ReadOps <;>
    cases h2 : fetch MetricName.WriteOps <;>
      cases h3 : fetch MetricName.ReadThroughput <;>
        cases h4 : fetch MetricName.WriteThroughput <;>
          cases h5 : fetch MetricName.QueueLength <;>
            first
              | rfl
              | (exfalso; cases m <;> simp_all)

/-- Witness for C4: a concrete fetch function failing on every dimension
yields the all-zero record. -/
theorem metric_fetch_error_all_zero_witness :
    get_volume_metrics failingFetch = zeroMetricResults ∧
    zeroMetricResults.ReadOps_p99 = 0 ∧ zeroMetricResults.WriteOps_p99 = 0 ∧
    zeroMetricResults.ReadOps_peak = 0 ∧ zeroMetricResults.WriteOps_peak = 0 ∧
    zeroMetricResults.ReadThroughput_p99 = 0 ∧
    zeroMetricResults.WriteThroughput_p99 = 0 ∧
    zeroMetricResults.ReadThroughput_peak = 0 ∧
    zeroMetricResults.WriteThroughput_peak = 0 ∧
    zeroMetricResults.QueueLength_p99 = 0 :=
  metric_fetch_error_all_zero failingFetch
    ⟨MetricName.ReadOps, "metrics unavailable", rfl⟩

/-- Sorting the snapshots permutes the input list. -/
theorem sortSnapshots_perm (l : List Snapshot) : List.Perm (sortSnapshots l) l :=
  List.perm_insertionSort _ l

/-- The sorted snapshot list is sorted by creation timestamp. -/
theorem sortSnapshots_sorted (l : List Snapshot) :
    List.Sorted snapLE (sortSnapshots l) :=
  List.sorted_insertionSort _ l

/-- Sorting preserves the number of snapshots. -/
theorem sortSnapshots_length (l : List Snapshot) :
    (sortSnapshots l).length = l.length :=
  (sortSnapshots_perm l).length_eq

/-- On a list sorted by creation time the computed day count is at least 1:
the raw whole-day difference is non-negative and a zero difference is forced
to 1. -/
theorem total_days_of_sorted_pos {s : List Snapshot}
    (hs : List.Sorted snapLE s) : 1 ≤ total_days_of s := by
  cases s with
  | nil => simp [total_days_of]
  | cons a rest =>
    cases hrl : rest.getLast? with
    | none => simp [total_days_of, hrl]
    | some latest =>
      have hrest : rest ≠ [] := fun hr => by simp [hr] at hrl
      have hmem : latest ∈ rest := by
        rw [List.getLast?_eq_getLast rest hrest] at hrl
        exact (Option.some.inj hrl) ▸ List.getLast_mem hrest
      have hle : a.startTime ≤ latest.startTime :=
        List.rel_of_sorted_cons hs latest hmem
      have hd : 0 ≤ (latest.startTime - a.startTime).fdiv 86400 :=
        Int.fdiv_nonneg (by omega) (by norm_num)
      simp only [total_days_of, hrl]
      split
      · exact le_refl 1
      · omega

/-- A non-empty snapshot list stays non-empty after sorting. -/
theorem sortSnapshots_ne_nil {l : List Snapshot} (h : l ≠ []) :
    sortSnapshots l ≠ [] := by
  intro hs
  have hlen := sortSnapshots_length l
  rw [hs] at hlen
  exact h (List.eq_nil_of_length_eq_zero hlen.symm)

/-- Claim C2: totalDays equals the whole-day count (floor of the second
difference over 86400) between the first and last snapshot of the time-sorted
sequence, forced to 1 when fewer than two snapshots exist or when that count
is exactly zero; in every case (single snapshot, same-day snapshots) the
result is at least 1 and never 0. -/
theorem analyzer_total_days_rule (l : List Snapshot) :
    1 ≤ total_days_of (sortSnapshots l) ∧
    total_days_of (sortSnapshots l) =
      (if 2 ≤ l.length then
         (if ((sortSnapshots l).getLastI.startTime -
              (sortSnapshots l).headI.startTime).fdiv 86400 = 0
          then 1
          else ((sortSnapshots l).getLastI.startTime -
                (sortSnapshots l).headI.startTime).fdiv 86400)
       else 1) := by
  constructor
  · exact total_days_of_sorted_pos (sortSnapshots_sorted l)
  · have hlen := sortSnapshots_length l
    rcases hsl : sortSnapshots l with _ | ⟨a, rest⟩ <;> rw [hsl] at hlen
    · simp [total_days_of, ← hlen]
    · cases rest with
      | nil =>
        simp only [List.length_singleton] at hlen
        simp [total_days_of, ← hlen]
      | cons b t =>
        have hbt : (b :: t) ≠ [] := List.cons_ne_nil b t
        have hg : (b :: t).getLast? = some ((b :: t).getLast hbt) :=
          List.getLast?_eq_getLast _ hbt
        have hlat : (a :: b :: t).getLastI = (b :: t).getLast hbt := by
          rw [List.getLastI_eq_getLast?, List.getLast?_cons_cons, hg]
        have hlen2 : 2 ≤ l.length := by
          rw [← hlen]
          simp only [List.length_cons]
          omega
        simp only [total_days_of, hg, hlat, List.headI, if_pos hlen2]

/-- Claim C1: for a non-empty snapshot sequence the analyzer's totalChange is
the single snapshot's actual size when exactly one snapshot exists, and with
two or more is the last (time-sorted) snapshot's actual size when strictly
larger than the first's, otherwise the first's actual size; intermediate
snapshots are ignored. -/
theorem analyzer_total_change_rule (l : List Snapshot) (vsize : ℚ)
    (h : l ≠ []) :
    (analyze_volume_snapshots l vsize).map SnapAnalysis.total_change =
      some (if l.length = 1 then (sortSnapshots l).headI.actual_size_gib
            else if (sortSnapshots l).headI.actual_size_gib <
                    (sortSnapshots l).getLastI.actual_size_gib
                 then (sortSnapshots l).getLastI.actual_size_gib
                 else (sortSnapshots l).headI.actual_size_gib) := by
  have hlen := sortSnapshots_length l
  rcases hsl : sortSnapshots l with _ | ⟨a, rest⟩ <;> rw [hsl] at hlen
  · exact absurd (List.eq_nil_of_length_eq_zero hlen.symm) h
  · cases rest with
    | nil =>
      simp only [List.length_singleton] at hlen
      simp [analyze_volume_snapshots, hsl, total_change_of, ← hlen]
    | cons b t =>
      have hbt : (b :: t) ≠ [] := List.cons_ne_nil b t
      have hg : (b :: t).getLast? = some ((b :: t).getLast hbt) :=
        List.getLast?_eq_getLast _ hbt
      have hlat : (a :: b :: t).getLastI = (b :: t).getLast hbt := by
        rw [List.getLastI_eq_getLast?, List.getLast?_cons_cons, hg]
      have hlen1 : l.length ≠ 1 := by
        rw [← hlen]
        simp only [List.length_cons]
        omega
      simp [analyze_volume_snapshots, hsl, total_change_of, hg, hlat, hlen1,
        List.getLast?_cons_cons, gt_iff_lt]

/-- Claim C5: for volumeSize ≥ 0 and a non-empty snapshot sequence the
analyzer returns avgDailyChange = totalChange / totalDays, avgDailyChangePercent
= avgDailyChange / volumeSize * 100 when volumeSize is positive and 0
otherwise (in particular 0 when volumeSize = 0), and usagePercentage =
totalSnapshotSize / volumeSize * 100 when volumeSize is positive and 0
otherwise; nothing crashes on a zero-size volume. -/
theorem analyzer_derived_rates (l : List Snapshot) (vsize : ℚ)
    (hv : 0 ≤ vsize) (h : l ≠ []) :
    (analyze_volume_snapshots l vsize).map SnapAnalysis.avg_daily_change =
      some (total_change_of (sortSnapshots l) /
            (total_days_of (sortSnapshots l) : ℚ)) ∧
    (analyze_volume_snapshots l vsize).map SnapAnalysis.avg_daily_change_percent =
      some (if 0 < vsize
            then total_change_of (sortSnapshots l) /
                 (total_days_of (sortSnapshots l) : ℚ) / vsize * 100
            else 0) ∧
    (analyze_volume_snapshots l vsize).map SnapAnalysis.usage_percentage =
      some (if 0 < vsize
            then (sortSnapshots l).getLastI.actual_size_gib / vsize * 100
            else 0) := by
  have hne : sortSnapshots l ≠ [] := sortSnapshots_ne_nil h
  have hg : (sortSnapshots l).getLast? = some ((sortSnapshots l).getLast hne) :=
    List.getLast?_eq_getLast _ hne
  have hgi : (sortSnapshots l).getLastI = (sortSnapshots l).getLast hne := by
    rw [List.getLastI_eq_getLast?, hg]
  have hpos : 0 < total_days_of (sortSnapshots l) :=
    total_days_of_sorted_pos (sortSnapshots_sorted l)
  refine ⟨?_, ?_, ?_⟩ <;>
    simp [analyze_volume_snapshots, hg, hgi, hpos, gt_iff_lt]

/-- Claim C6: a volume with an empty snapshot sequence yields no analysis
record (the analyzer returns the no-snapshots signal), contributes no report,
and the per-volume loop simply continues with the remaining volumes. -/
theorem empty_snapshots_skip (vsize : ℚ) (rest : List (List Snapshot × ℚ)) :
    analyze_volume_snapshots [] vsize = none ∧
    collectReports (([], vsize) :: rest) = collectReports rest := by
  have h1 : analyze_volume_snapshots [] vsize = none := rfl
  exact ⟨h1, by simp [collectReports, List.filterMap_cons, h1]⟩

/-- Claim C10: the analyzer sorts the snapshot list itself, so for snapshot
lists with pairwise-distinct creation timestamps the whole analysis result is
invariant under permutation of the input list; callers need not pre-sort. -/
theorem analyzer_permutation_invariant (l₁ l₂ : List Snapshot) (vsize : ℚ)
    (hperm : List.Perm l₁ l₂)
    (hdistinct : (l₁.map Snapshot.startTime).Nodup) :
    analyze_volume_snapshots l₁ vsize = analyze_volume_snapshots l₂ vsize := by
  have hstrict : ∀ m : List Snapshot, List.Perm m l₁ → List.Sorted snapLE m →
      List.Sorted (fun a b => a.startTime < b.startTime) m := by
    intro m hm hs
    have hnd : (m.map Snapshot.startTime).Nodup :=
      ((hm.map Snapshot.startTime).nodup_iff).mpr hdistinct
    have hne : m.Pairwise fun a b => a.startTime ≠ b.startTime :=
      List.pairwise_map.mp hnd
    exact (hs.and hne).imp fun hab => lt_of_le_of_ne hab.1 hab.2
  have hsort : sortSnapshots l₁ = sortSnapshots l₂ := by
    haveI : IsAntisymm Snapshot fun a b => a.startTime < b.startTime :=
      ⟨fun a b h1 h2 => absurd (lt_trans h1 h2) (lt_irrefl _)⟩
    exact List.eq_of_perm_of_sorted
      ((sortSnapshots_perm l₁).trans (hperm.trans (sortSnapshots_perm l₂).symm))
      (hstrict _ (sortSnapshots_perm l₁) (sortSnapshots_sorted l₁))
      (hstrict _ ((sortSnapshots_perm l₂).trans hperm.symm)
        (sortSnapshots_sorted l₂))
  simp only [analyze_volume_snapshots, hsort]

/-- Folding the totals loop from any starting accumulator adds the per-field
sums of the remaining reports. -/
theorem fleetTotals_foldl (volumes_data : List VolumeReport) (t : FleetTotals) :
    volumes_data.foldl addReport t =
      { total_size := t.total_size +
          (volumes_data.map VolumeReport.volume_size).sum
        total_read_iops_p99 := t.total_read_iops_p99 +
          (volumes_data.map VolumeReport.ReadOps_p99).sum
        total_write_iops_p99 := t.total_write_iops_p99 +
          (volumes_data.map VolumeReport.WriteOps_p99).sum
        total_read_iops_peak := t.total_read_iops_peak +
          (volumes_data.map VolumeReport.ReadOps_peak).sum
        total_write_iops_peak := t.total_write_iops_peak +
          (volumes_data.map VolumeReport.WriteOps_peak).sum
        total_read_mbps_p99 := t.total_read_mbps_p99 +
          (volumes_data.map VolumeReport.ReadThroughput_p99).sum
        total_write_mbps_p99 := t.total_write_mbps_p99 +
          (volumes_data.map VolumeReport.WriteThroughput_p99).sum
        total_read_mbps_peak := t.total_read_mbps_peak +
          (volumes_data.map VolumeReport.ReadThroughput_peak).sum
        total_write_mbps_peak := t.total_write_mbps_peak +
          (volumes_data.map VolumeReport.WriteThroughput_peak).sum } := by
  induction volumes_data generalizing t with
  | nil => simp
  | cons v vs ih =>
    simp only [List.foldl_cons, ih, List.map_cons, List.sum_cons, addReport,
      FleetTotals.mk.injEq]
    refine ⟨?_, ?_, ?_, ?_, ?_, ?_, ?_, ?_, ?_⟩ <;> ring

/-- Claim C9: every summed field of the fleet summary equals the arithmetic
sum of that field across the reports, and the sizing-recommendation figures
are the sum of per-volume average daily change, its percentage of total size
(0 when the total size is 0), and combined read+write sustained/peak IOPS and
throughput sums. -/
theorem fleet_summary_additive (volumes_data : List VolumeReport) :
    (fleetTotals volumes_data).total_size =
      (volumes_data.map VolumeReport.volume_size).sum ∧
    (fleetTotals volumes_data).total_read_iops_p99 =
      (volumes_data.map VolumeReport.ReadOps_p99).sum ∧
    (fleetTotals volumes_data).total_write_iops_p99 =
      (volumes_data.map VolumeReport.WriteOps_p99).sum ∧
    (fleetTotals volumes_data).total_read_iops_peak =
      (volumes_data.map VolumeReport.ReadOps_peak).sum ∧
    (fleetTotals volumes_data).total_write_iops_peak =
      (volumes_data.map VolumeReport.WriteOps_peak).sum ∧
    (fleetTotals volumes_data).total_read_mbps_p99 =
      (volumes_data.map VolumeReport.ReadThroughput_p99).sum ∧
    (fleetTotals volumes_data).total_write_mbps_p99 =
      (volumes_data.map VolumeReport.WriteThroughput_p99).sum ∧
    (fleetTotals volumes_data).total_read_mbps_peak =
      (volumes_data.map VolumeReport.ReadThroughput_peak).sum ∧
    (fleetTotals volumes_data).total_write_mbps_peak =
      (volumes_data.map VolumeReport.WriteThroughput_peak).sum ∧
    (fsxFiguresOf volumes_data).total_daily_change =
      (volumes_data.map VolumeReport.avg_daily_change).sum ∧
    (fsxFiguresOf volumes_data).daily_change_percent =
      (if 0 < (volumes_data.map VolumeReport.volume_size).sum
       then (volumes_data.map VolumeReport.avg_daily_change).sum /
            (volumes_data.map VolumeReport.volume_size).sum * 100
       else 0) ∧
    (fsxFiguresOf volumes_data).sustained_iops =
      (volumes_data.map VolumeReport.ReadOps_p99).sum +
      (volumes_data.map VolumeReport.WriteOps_p99).sum ∧
    (fsxFiguresOf volumes_data).peak_iops =
      (volumes_data.map VolumeReport.ReadOps_peak).sum +
      (volumes_data.map VolumeReport.WriteOps_peak).sum ∧
    (fsxFiguresOf volumes_data).sustained_mbps =
      (volumes_data.map VolumeReport.ReadThroughput_p99).sum +
      (volumes_data.map VolumeReport.WriteThroughput_p99).sum ∧
    (fsxFiguresOf volumes_data).peak_mbps =
      (volumes_data.map VolumeReport.ReadThroughput_peak).sum +
      (volumes_data.map VolumeReport.WriteThroughput_peak).sum := by
  have ht : fleetTotals volumes_data =
      { total_size := (volumes_data.map VolumeReport.volume_size).sum
        total_read_iops_p99 := (volumes_data.map VolumeReport.ReadOps_p99).sum
        total_write_iops_p99 := (volumes_data.map VolumeReport.WriteOps_p99).sum
        total_read_iops_peak := (volumes_data.map VolumeReport.ReadOps_peak).sum
        total_write_iops_peak := (volumes_data.map VolumeReport.WriteOps_peak).sum
        total_read_mbps_p99 :=
          (volumes_data.map VolumeReport.ReadThroughput_p99).sum
        total_write_mbps_p99 :=
          (volumes_data.map VolumeReport.WriteThroughput_p99).sum
        total_read_mbps_peak :=
          (volumes_data.map VolumeReport.ReadThroughput_peak).sum
        total_write_mbps_peak :=
          (volumes_data.map VolumeReport.WriteThroughput_peak).sum } := by
    rw [fleetTotals, fleetTotals_foldl]
    simp
  refine ⟨?_, ?_, ?_, ?_, ?_, ?_, ?_, ?_, ?_, ?_, ?_, ?_, ?_, ?_, ?_⟩ <;>
    simp [ht, fsxFiguresOf, gt_iff_lt]

/-- Witness for C1: two concrete snapshots five days apart. -/
theorem analyzer_total_change_rule_witness :
    (analyze_volume_snapshots [snapA, snapB] 100).map SnapAnalysis.total_change =
      some (if ([snapA, snapB] : List Snapshot).length = 1
            then (sortSnapshots [snapA, snapB]).headI.actual_size_gib
            else if (sortSnapshots [snapA, snapB]).headI.actual_size_gib <
                    (sortSnapshots [snapA, snapB]).getLastI.actual_size_gib
                 then (sortSnapshots [snapA, snapB]).getLastI.actual_size_gib
                 else (sortSnapshots [snapA, snapB]).headI.actual_size_gib) :=
  analyzer_total_change_rule [snapA, snapB] 100 (List.cons_ne_nil _ _)

/-- Witness for C5: the same two concrete snapshots on a 100 GiB volume. -/
theorem analyzer_derived_rates_witness :
    (analyze_volume_snapshots [snapA, snapB] 100).map
        SnapAnalysis.avg_daily_change =
      some (total_change_of (sortSnapshots [snapA, snapB]) /
            (total_days_of (sortSnapshots [snapA, snapB]) : ℚ)) ∧
    (analyze_volume_snapshots [snapA, snapB] 100).map
        SnapAnalysis.avg_daily_change_percent =
      some (if 0 < (100 : ℚ)
            then total_change_of (sortSnapshots [snapA, snapB]) /
                 (total_days_of (sortSnapshots [snapA, snapB]) : ℚ) / 100 * 100
            else 0) ∧
    (analyze_volume_snapshots [snapA, snapB] 100).map
        SnapAnalysis.usage_percentage =
      some (if 0 < (100 : ℚ)
            then (sortSnapshots [snapA, snapB]).getLastI.actual_size_gib /
                 100 * 100
            else 0) :=
  analyzer_derived_rates [snapA, snapB] 100 (by norm_num) (List.cons_ne_nil _ _)

/-- Witness for C10: swapping the two concrete snapshots does not change the
analysis. -/
theorem analyzer_permutation_invariant_witness :
    analyze_volume_snapshots [snapA, snapB] 100 =
      analyze_volume_snapshots [snapB, snapA] 100 :=
  analyzer_permutation_invariant [snapA, snapB] [snapB, snapA] 100
    (List.Perm.swap snapB snapA []) (by decide)
